import Mathlib

/-
  Shallow embedding of the Treatment Booking System backend
  (Sequelize models, controllers and services) together with proofs
  about its booking, timeslot, cancellation and webhook logic.

  Conventions:
  - instants are integers in milliseconds (JavaScript Date.getTime);
  - durations are integers in minutes, as stored on the rows;
  - database tables are Lean lists of rows; a Sequelize update that
    saves a row is modelled as replacing the row in the list;
  - a thrown controller error is an Except.error value.
-/

namespace TreatmentBooking

/-- Booking statuses, from the bookingStatus table of the configuration module. -/
inductive Status where
  | pending
  | confirmed
  | in_progress
  | completed
  | cancelled
  | no_show
  deriving DecidableEq

/-- User roles, from the roles table of the configuration module. -/
inductive Role where
  | super_admin
  | store_admin
  | staff
  | customer
  deriving DecidableEq

/-- A row of the timeslots table, with the columns the availability logic reads. -/
structure Timeslot where
  id : Nat
  storeId : Nat
  startTime : Int
  endTime : Int
  maxCapacity : Int
  currentBookings : Int
  isActive : Bool
  deriving DecidableEq

/-- Timeslot.prototype.incrementBookings: adds one to currentBookings and saves.
There is no capacity check in the source. -/
def Timeslot.incrementBookings (t : Timeslot) : Timeslot :=
  { t with currentBookings := t.currentBookings + 1 }

/-- Timeslot.prototype.decrementBookings: currentBookings becomes
Math.max(0, currentBookings - 1), then the row is saved. -/
def Timeslot.decrementBookings (t : Timeslot) : Timeslot :=
  { t with currentBookings := max 0 (t.currentBookings - 1) }

/-- The where clause of AvailabilityService.reserveTimeslot: same store, slot
interval covering the requested interval, isActive true. The source has no
condition on currentBookings versus maxCapacity here. -/
def Timeslot.coversForReserve (storeId : Nat) (s e : Int) (t : Timeslot) : Bool :=
  t.storeId == storeId && decide (t.startTime ≤ s) && decide (e ≤ t.endTime) && t.isActive

/-- AvailabilityService.reserveTimeslot: findOne with the covering where clause;
when a slot is found, incrementBookings is applied to it and the updated row is
saved back to the table. Returns the updated slot (null when none found) and the
table after the save. -/
def reserveTimeslot (slots : List Timeslot) (storeId : Nat) (s e : Int) :
    Option Timeslot × List Timeslot :=
  match slots.find? (Timeslot.coversForReserve storeId s e) with
  | none => (none, slots)
  | some t =>
      (some t.incrementBookings,
       slots.map (fun u => if u.id == t.id then u.incrementBookings else u))

/-- The two mutations of a timeslot counter that the code base contains. -/
inductive CounterOp where
  | increment
  | decrement
  deriving DecidableEq

/-- Apply one counter mutation. -/
def applyCounterOp (t : Timeslot) : CounterOp → Timeslot
  | CounterOp.increment => t.incrementBookings
  | CounterOp.decrement => t.decrementBookings

/-- Apply a sequence of counter mutations to a timeslot. -/
def applyCounterOps (t : Timeslot) (ops : List CounterOp) : Timeslot :=
  ops.foldl applyCounterOp t

/-- A row of the webhook_subscriptions table. retryCount and maxRetries are
non-negative integers; the model validation requires maxRetries between 0
and 10 and retryCount at least 0. -/
structure WebhookSubscription where
  url : String
  secret : String
  isActive : Bool
  retryCount : Nat
  maxRetries : Nat
  lastSuccessAt : Option Int
  lastFailureAt : Option Int
  lastFailureReason : Option String
  deriving DecidableEq

/-- WebhookSubscription.prototype.recordSuccess: stamps lastSuccessAt, resets
retryCount to zero and clears lastFailureReason. It does not touch isActive. -/
def WebhookSubscription.recordSuccess (w : WebhookSubscription) (now : Int) :
    WebhookSubscription :=
  { w with lastSuccessAt := some now, retryCount := 0, lastFailureReason := none }

/-- WebhookSubscription.prototype.recordFailure: stamps lastFailureAt, records
the reason, increments retryCount, and disables the subscription when the new
retryCount has reached maxRetries. -/
def WebhookSubscription.recordFailure (w : WebhookSubscription) (reason : String)
    (now : Int) : WebhookSubscription :=
  let w1 : WebhookSubscription :=
    { w with lastFailureAt := some now, lastFailureReason := some reason,
             retryCount := w.retryCount + 1 }
  if w1.maxRetries ≤ w1.retryCount then { w1 with isActive := false } else w1

/-- A delivery outcome recorded on a subscription by WebhookController.sendWebhook. -/
inductive WebhookOp where
  | success (now : Int)
  | failure (reason : String) (now : Int)

/-- Apply one recorded delivery outcome. -/
def applyWebhookOp (w : WebhookSubscription) : WebhookOp → WebhookSubscription
  | WebhookOp.success now => w.recordSuccess now
  | WebhookOp.failure reason now => w.recordFailure reason now

/-- Apply a sequence of recorded delivery outcomes. -/
def runWebhookOps (w : WebhookSubscription) (ops : List WebhookOp) : WebhookSubscription :=
  ops.foldl applyWebhookOp w

/-- A freshly created subscription: the model defaults are isActive true and
retryCount zero; maxRetries comes from the request (its own default is 3, and
the validation accepts any value from 0 to 10). -/
def newSubscription (url secret : String) (maxRetries : Nat) : WebhookSubscription :=
  { url := url, secret := secret, isActive := true, retryCount := 0,
    maxRetries := maxRetries, lastSuccessAt := none, lastFailureAt := none,
    lastFailureReason := none }

/-- Buffer.from over a string: its UTF-8 byte sequence, as natural numbers. -/
def bufferOf (s : String) : List Nat :=
  s.toUTF8.toList.map (fun b => b.toNat)

/-- crypto.timingSafeEqual: throws when the buffers have different lengths
(modelled as none); on equal lengths it returns whether the bytes agree. -/
def timingSafeEqual (a b : List Nat) : Option Bool :=
  if a.length = b.length then some (a == b) else none

/-- WebhookSubscription.prototype.generateSignature. The argument hmacSha256Hex
stands for the Node crypto library computation hex(HMAC-SHA256(secret, payload));
the repository code only prepends the scheme tag to it. -/
def generateSignature (hmacSha256Hex : String → String → String)
    (w : WebhookSubscription) (payload : String) : String :=
  "sha256=" ++ hmacSha256Hex w.secret payload

/-- WebhookSubscription.prototype.verifySignature: recomputes the expected
signature and compares the two buffers with crypto.timingSafeEqual. -/
def verifySignature (hmacSha256Hex : String → String → String)
    (w : WebhookSubscription) (payload signature : String) : Option Bool :=
  timingSafeEqual (bufferOf signature)
    (bufferOf (generateSignature hmacSha256Hex w payload))

/-- A row of the bookings table, with the columns the booking logic reads. -/
structure Booking where
  id : Nat
  customerId : Nat
  storeId : Nat
  treatmentId : Nat
  staffId : Option Nat
  bookingDateTime : Int
  duration : Int
  status : Status
  priceAmount : Int
  notes : Option String
  cancellationReason : Option String
  cancelledAt : Option Int
  completedAt : Option Int
  deriving DecidableEq

/-- Booking.prototype.getEndDateTime: start plus duration minutes, in ms. -/
def Booking.getEndDateTime (b : Booking) : Int :=
  b.bookingDateTime + b.duration * 60000

/-- Booking.prototype.isOverlapping, the three-disjunct test from the model. -/
def Booking.isOverlapping (b : Booking) (startTime endTime : Int) : Bool :=
  (decide (startTime < b.getEndDateTime) && decide (b.bookingDateTime ≤ startTime)) ||
  (decide (b.bookingDateTime < endTime) && decide (endTime ≤ b.getEndDateTime)) ||
  (decide (startTime ≤ b.bookingDateTime) && decide (b.getEndDateTime ≤ endTime))

/-- Row predicate of Booking.findConflicting: same staff, status not cancelled
and not no_show, and either bookingDateTime BETWEEN startTime AND endTime
(SQL BETWEEN is inclusive at both endpoints) or the booking started earlier
and its end, start plus duration minutes, lies strictly after startTime.
An optional booking id is excluded. -/
def conflictWhere (staffId : Nat) (startTime endTime : Int)
    (excludeBookingId : Option Nat) (b : Booking) : Bool :=
  b.staffId == some staffId &&
  !(b.status == Status.cancelled || b.status == Status.no_show) &&
  ((decide (startTime ≤ b.bookingDateTime) && decide (b.bookingDateTime ≤ endTime)) ||
   (decide (b.bookingDateTime < startTime) &&
    decide (startTime < b.bookingDateTime + b.duration * 60000))) &&
  (match excludeBookingId with
   | none => true
   | some i => !(b.id == i))

/-- Booking.findConflicting: all rows of the bookings table matching the
conflict where clause. -/
def findConflicting (bookings : List Booking) (staffId : Nat)
    (startTime endTime : Int) (excludeBookingId : Option Nat) : List Booking :=
  bookings.filter (conflictWhere staffId startTime endTime excludeBookingId)

/-- The half-open overlap predicate in the words of the specification: the
intervals from a to b and from c to d overlap iff a < d and c < b. -/
def specOverlap (a b c d : Int) : Bool :=
  decide (a < d) && decide (c < b)

/-- The value of config.booking.cancellationDeadlineHours in the configuration
module: the constant 24. -/
def configCancellationDeadlineHours : Int := 24

/-- Booking.prototype.canBeCancelled: status not completed, cancelled or
no_show, and hoursUntilBooking at least the configured deadline. The source
compares (bookingDateTime - now) / 3600000 with the deadline using JavaScript
number division; multiplying through by 3600000 gives the equivalent exact
integer comparison used here. -/
def Booking.canBeCancelled (b : Booking) (now : Int) : Bool :=
  !(b.status == Status.completed || b.status == Status.cancelled ||
    b.status == Status.no_show) &&
  decide (configCancellationDeadlineHours * 3600000 ≤ b.bookingDateTime - now)

/-- Operating hours of one weekday, from the store row. -/
structure DayHours where
  closed : Bool
  openHour : Nat
  openMinute : Nat
  closeHour : Nat
  closeMinute : Nat
  deriving DecidableEq

/-- The store settings keys the cancellation and advance-booking rules name. -/
structure StoreSettings where
  cancellationDeadlineHours : Int
  maxAdvanceBookingDays : Int
  deriving DecidableEq

/-- A row of the stores table, with the columns the availability logic reads.
operatingHours maps a day-of-week index, computed in the store timezone, to
that day entry. -/
structure Store where
  id : Nat
  operatingHours : List (Nat × DayHours)
  settings : StoreSettings
  deriving DecidableEq

/-- Reading store.operatingHours at a day-of-week key; none models an absent key. -/
def Store.hoursFor (s : Store) (dayOfWeek : Nat) : Option DayHours :=
  (s.operatingHours.find? (fun p => p.1 == dayOfWeek)).map Prod.snd

/-- Modelled from the words of claim C8, for comparison with the code: a booking
is cancellable per the cancellationDeadlineHours setting of the OWNING STORE. -/
def specStoreCancellable (store : Store) (b : Booking) (now : Int) : Bool :=
  !(b.status == Status.completed || b.status == Status.cancelled ||
    b.status == Status.no_show) &&
  decide (store.settings.cancellationDeadlineHours * 3600000 ≤ b.bookingDateTime - now)

/-- BookingController.updateBookingStatus, effect on the booking row: the status
is overwritten with the requested value, and the beforeUpdate hook of the model
stamps completedAt or cancelledAt when the status changes to completed or to
cancelled. No transition validation exists in the source. -/
def updateBookingStatus (b : Booking) (s : Status) (now : Int) : Booking :=
  { b with
    status := s,
    completedAt := if s ≠ b.status ∧ s = Status.completed then some now else b.completedAt,
    cancelledAt := if s ≠ b.status ∧ s = Status.cancelled then some now else b.cancelledAt }

/-- The booking state machine in the words of the specification, for comparison
with the code: from pending only to confirmed, cancelled or no_show; from
confirmed only to in_progress, cancelled or no_show; from in_progress only to
completed or cancelled; and never out of a terminal status. -/
def specAllowedTransition : Status → Status → Bool
  | Status.pending, Status.confirmed => true
  | Status.pending, Status.cancelled => true
  | Status.pending, Status.no_show => true
  | Status.confirmed, Status.in_progress => true
  | Status.confirmed, Status.cancelled => true
  | Status.confirmed, Status.no_show => true
  | Status.in_progress, Status.completed => true
  | Status.in_progress, Status.cancelled => true
  | _, _ => false

/-- Minutes from local midnight of the opening time of a day entry, the value
openHour * 60 + openMinute that the generation loop starts from. -/
def minutesOpen (oh : DayHours) : Nat :=
  oh.openHour * 60 + oh.openMinute

/-- Minutes from local midnight of the closing time of a day entry. -/
def minutesClose (oh : DayHours) : Nat :=
  oh.closeHour * 60 + oh.closeMinute

/-- The while loop of Timeslot.generateDailySlots over minutes from local
midnight: while currentTime is before endTime, a slot from cur to cur + step is
pushed when it still fits, and currentTime advances by step. The structural
fuel argument bounds the number of iterations; slotsLoop below supplies
endT - cur, which is enough fuel whenever step is positive, the only case in
which the JavaScript loop terminates at all. -/
def slotsLoopAux : Nat → Nat → Nat → Nat → List (Nat × Nat)
  | 0, _, _, _ => []
  | fuel + 1, cur, endT, step =>
    if cur < endT then
      if cur + step ≤ endT then
        (cur, cur + step) :: slotsLoopAux fuel (cur + step) endT step
      else
        slotsLoopAux fuel (cur + step) endT step
    else []

/-- The generation loop with enough fuel for a positive step. -/
def slotsLoop (cur endT step : Nat) : List (Nat × Nat) :=
  slotsLoopAux (endT - cur) cur endT step

/-- Timeslot.generateDailySlots: looks up the operating hours of the store for
the day of week of the date (computed in the store timezone); returns no slots
when the entry is absent or closed; otherwise runs the slot loop from opening
to closing time and materialises each pair as a timeslot row with zero
currentBookings, the requested capacity, and the model default isActive true.
dayBase is the instant of local midnight of the date in ms, so that local
minute m becomes the instant dayBase + 60000 * m. -/
def generateDailySlots (store : Store) (dayOfWeek : Nat) (dayBase : Int)
    (slotDuration : Nat) (capacity : Int) : List Timeslot :=
  match store.hoursFor dayOfWeek with
  | none => []
  | some oh =>
    if oh.closed then []
    else
      (slotsLoop (minutesOpen oh) (minutesClose oh) slotDuration).map (fun p =>
        { id := 0, storeId := store.id,
          startTime := dayBase + 60000 * (p.1 : Int),
          endTime := dayBase + 60000 * (p.2 : Int),
          maxCapacity := capacity, currentBookings := 0, isActive := true })

/-- Modelled from the words of claim C7, for comparison with the code: when the
store is closed that day the empty set; otherwise the contiguous sequence of
slots starting at the opening time, each slotDuration minutes long with zero
currentBookings and the requested capacity, the final partial slot discarded. -/
def specContiguousSlots (store : Store) (dayOfWeek : Nat) (dayBase : Int)
    (slotDuration : Nat) (capacity : Int) : List Timeslot :=
  match store.hoursFor dayOfWeek with
  | none => []
  | some oh =>
    if oh.closed then []
    else
      (List.range ((minutesClose oh - minutesOpen oh) / slotDuration)).map (fun i =>
        { id := 0, storeId := store.id,
          startTime := dayBase + 60000 * ((minutesOpen oh + i * slotDuration : Nat) : Int),
          endTime := dayBase + 60000 * ((minutesOpen oh + (i + 1) * slotDuration : Nat) : Int),
          maxCapacity := capacity, currentBookings := 0, isActive := true })

/-- AvailabilityService.generateTimeslots: first destroys every timeslot of the
store whose startTime lies between local midnight and local end of day of the
date (an unconditional delete: the source never inspects currentBookings and
has no failure path), then bulk-inserts the slots of generateDailySlots.
Returns the table afterwards and the number of slots generated. -/
def generateTimeslotsService (slots : List Timeslot) (store : Store)
    (dayOfWeek : Nat) (dayBase : Int) (slotDuration : Nat) (capacity : Int) :
    List Timeslot × Nat :=
  let kept := slots.filter (fun t =>
    !(t.storeId == store.id && decide (dayBase ≤ t.startTime) &&
      decide (t.startTime ≤ dayBase + 86399999)))
  let fresh := generateDailySlots store dayOfWeek dayBase slotDuration capacity
  (kept ++ fresh, fresh.length)

/-- A row of the users table, with the columns the booking logic reads. -/
structure User where
  id : Nat
  storeId : Option Nat
  role : Role
  isActive : Bool
  deriving DecidableEq

/-- A row of the treatments table, with the columns the booking logic reads. -/
structure Treatment where
  id : Nat
  storeId : Nat
  duration : Int
  priceAmount : Int
  isActive : Bool
  deriving DecidableEq

/-- The database tables the booking controller touches, plus the queue of
events handed to the webhook dispatcher. No booking controller action ever
appends to the event queue: WebhookController.triggerWebhooks has no callers
in the code base. -/
structure SystemState where
  users : List User
  treatments : List Treatment
  bookings : List Booking
  timeslots : List Timeslot
  events : List String
  deriving DecidableEq

/-- The error classes the booking controller throws. -/
inductive ApiError where
  | customerRequired
  | notFound
  | treatmentStoreMismatch
  | invalidStaff
  | conflict
  | authorization
  | notCancellable
  deriving DecidableEq

/-- The row inserted by Booking.create inside BookingController.createBooking:
status pending, duration and price copied from the treatment, no cancellation
or completion data. -/
def newBookingRecord (newId customerId storeId treatmentId : Nat)
    (staffId : Option Nat) (bookingDateTime : Int) (t : Treatment)
    (notes : Option String) : Booking :=
  { id := newId, customerId := customerId, storeId := storeId,
    treatmentId := treatmentId, staffId := staffId,
    bookingDateTime := bookingDateTime, duration := t.duration,
    status := Status.pending, priceAmount := t.priceAmount, notes := notes,
    cancellationReason := none, cancelledAt := none, completedAt := none }

/-- BookingController.createBooking: resolves the customer from the caller role,
validates treatment, store membership, customer and optional staff, checks
staff conflicts with Booking.findConflicting, and on success inserts exactly
one booking row. The timeslot table and the event queue are not touched on any
path: the controller neither reserves a timeslot nor dispatches an event. -/
def createBooking (st : SystemState) (reqRole : Role) (reqUserId : Nat)
    (customerId : Option Nat) (storeId treatmentId : Nat) (staffId : Option Nat)
    (bookingDateTime : Int) (notes : Option String) (newId : Nat) :
    Except ApiError SystemState :=
  match (if reqRole = Role.customer then some reqUserId else customerId) with
  | none => Except.error ApiError.customerRequired
  | some cid =>
    match st.treatments.find? (fun t => t.id == treatmentId) with
    | none => Except.error ApiError.notFound
    | some t =>
      if !t.isActive then Except.error ApiError.notFound
      else if t.storeId ≠ storeId then Except.error ApiError.treatmentStoreMismatch
      else
        match st.users.find? (fun u => u.id == cid) with
        | none => Except.error ApiError.notFound
        | some c =>
          if !c.isActive then Except.error ApiError.notFound
          else if !(match staffId with
                    | none => true
                    | some sid =>
                      match st.users.find? (fun u => u.id == sid) with
                      | none => false
                      | some u => u.storeId == some storeId &&
                          (u.role == Role.staff || u.role == Role.store_admin)) then
            Except.error ApiError.invalidStaff
          else if (match staffId with
                   | none => false
                   | some sid =>
                     !(findConflicting st.bookings sid bookingDateTime
                        (bookingDateTime + t.duration * 60000) none).isEmpty) then
            Except.error ApiError.conflict
          else
            Except.ok { st with bookings :=
              (newBookingRecord newId cid storeId treatmentId staffId
                bookingDateTime t notes) :: st.bookings }

/-- BookingController.cancelBooking: loads the booking, applies the role checks,
requires canBeCancelled, and updates the row to status cancelled with the given
reason (default text when absent) and cancelledAt set to now; the beforeUpdate
hook stamps the same cancelledAt. The timeslot table and the event queue are
not touched on any path. -/
def cancelBooking (st : SystemState) (callerRole : Role) (callerId : Nat)
    (callerStoreId : Option Nat) (bookingId : Nat)
    (cancellationReason : Option String) (now : Int) :
    Except ApiError SystemState :=
  match st.bookings.find? (fun b => b.id == bookingId) with
  | none => Except.error ApiError.notFound
  | some b =>
    if callerRole = Role.customer ∧ b.customerId ≠ callerId then
      Except.error ApiError.authorization
    else if (callerRole = Role.store_admin ∨ callerRole = Role.staff) ∧
        callerStoreId ≠ some b.storeId then
      Except.error ApiError.authorization
    else if !(b.canBeCancelled now) then
      Except.error ApiError.notCancellable
    else
      Except.ok { st with bookings := st.bookings.map (fun x =>
        if x.id == b.id then
          { b with status := Status.cancelled,
                   cancellationReason :=
                     some (Option.getD cancellationReason ("Cancelled by user")),
                   cancelledAt := some now }
        else x) }

/-! Concrete rows used to evaluate the definitions on closed inputs. -/

/-- A timeslot with spare capacity. -/
def sampleSlot : Timeslot :=
  { id := 1, storeId := 1, startTime := 0, endTime := 3600000,
    maxCapacity := 2, currentBookings := 1, isActive := true }

/-- A timeslot that is exactly full: currentBookings equals maxCapacity. -/
def fullSlot : Timeslot :=
  { id := 7, storeId := 1, startTime := 0, endTime := 3600000,
    maxCapacity := 1, currentBookings := 1, isActive := true }

/-- A booking already in the terminal status completed. -/
def completedBooking : Booking :=
  { id := 3, customerId := 1, storeId := 1, treatmentId := 2, staffId := none,
    bookingDateTime := 0, duration := 60, status := Status.completed,
    priceAmount := 50, notes := none, cancellationReason := none,
    cancelledAt := none, completedAt := some 0 }

/-- A pending booking 30 hours after instant zero. -/
def farBooking : Booking :=
  { id := 4, customerId := 1, storeId := 1, treatmentId := 2, staffId := none,
    bookingDateTime := 108000000, duration := 60, status := Status.pending,
    priceAmount := 50, notes := none, cancellationReason := none,
    cancelledAt := none, completedAt := none }

/-- A store whose cancellation deadline setting is 48 hours. -/
def store48 : Store :=
  { id := 1, operatingHours := [],
    settings := { cancellationDeadlineHours := 48, maxAdvanceBookingDays := 90 } }

/-- A subscription created with maxRetries zero, which the model validation
(minimum 0) and the request schema both accept. -/
def zeroRetrySub : WebhookSubscription :=
  newSubscription ("https://example.com/hook") ("sec") 0

/-! Claim C10. -/

/-- C10: for every subscription and payload, verifying the signature produced by
the own signing function of the subscription succeeds, whatever the underlying
HMAC-SHA256 computation returns: verifySignature recomputes the expected value
from the same secret and payload and compares equal buffers of equal length. -/
theorem C10_verify_roundtrip (hmacSha256Hex : String → String → String)
    (w : WebhookSubscription) (payload : String) :
    verifySignature hmacSha256Hex w payload
      (generateSignature hmacSha256Hex w payload) = some true := by
  simp [verifySignature, timingSafeEqual]

/-! Claim C2. -/

/-- C2 (amended): the lower half of the counter invariant holds: the counter
stays non-negative under every sequence of increments and decrements, because
decrementBookings clamps at zero. The upper half fails in the code, see the
counterexample: incrementBookings is unconditional and reserveTimeslot does not
refuse a full slot. -/
theorem C2_counter_lower_bound (t : Timeslot) (ops : List CounterOp)
    (h : 0 ≤ t.currentBookings) :
    0 ≤ (applyCounterOps t ops).currentBookings := by
  induction ops generalizing t with
  | nil => exact h
  | cons op ops ih =>
    have hstep : 0 ≤ (applyCounterOp t op).currentBookings := by
      cases op with
      | increment =>
        simp only [applyCounterOp, Timeslot.incrementBookings]
        omega
      | decrement =>
        simp only [applyCounterOp, Timeslot.decrementBookings]
        exact le_max_left 0 _
    simpa [applyCounterOps, List.foldl_cons] using ih (applyCounterOp t op) hstep

/-- Witness for C2: the lower bound evaluated on a concrete slot and a concrete
sequence of mutations. -/
theorem C2_counter_lower_bound_witness :
    0 ≤ sampleSlot.currentBookings ∧
    0 ≤ (applyCounterOps sampleSlot
      [CounterOp.increment, CounterOp.decrement, CounterOp.decrement,
       CounterOp.decrement]).currentBookings :=
  ⟨by decide,
   C2_counter_lower_bound sampleSlot
     [CounterOp.increment, CounterOp.decrement, CounterOp.decrement,
      CounterOp.decrement] (by decide)⟩

/-- C2 counterexample: reserving a slot that is already full is not refused.
AvailabilityService.reserveTimeslot finds the full slot, whose where clause
never compares currentBookings with maxCapacity, and increments the counter
from 1 to 2, strictly above maxCapacity 1, both in the returned slot and in
the saved table. -/
theorem C2_counterexample :
    fullSlot.currentBookings = fullSlot.maxCapacity ∧
    (reserveTimeslot [fullSlot] 1 600000 1200000).1.map Timeslot.currentBookings
      = some 2 ∧
    (reserveTimeslot [fullSlot] 1 600000 1200000).2.map Timeslot.currentBookings
      = [2] ∧
    fullSlot.maxCapacity = 1 := by decide

/-! Claim C9. -/

/-- One recorded delivery outcome preserves the disable invariant. -/
theorem applyWebhookOp_inv (w : WebhookSubscription) (op : WebhookOp)
    (h : w.maxRetries ≤ w.retryCount → w.isActive = false) :
    (applyWebhookOp w op).maxRetries ≤ (applyWebhookOp w op).retryCount →
      (applyWebhookOp w op).isActive = false := by
  cases op with
  | success now =>
    intro hle
    simp only [applyWebhookOp, WebhookSubscription.recordSuccess] at hle ⊢
    exact h (le_trans hle (Nat.zero_le _))
  | failure reason now =>
    by_cases hc : w.maxRetries ≤ w.retryCount + 1
    · intro _
      simp [applyWebhookOp, WebhookSubscription.recordFailure, hc]
    · intro hle
      simp [applyWebhookOp, WebhookSubscription.recordFailure, hc] at hle

/-- Delivery outcomes never change maxRetries. -/
theorem applyWebhookOp_maxRetries (w : WebhookSubscription) (op : WebhookOp) :
    (applyWebhookOp w op).maxRetries = w.maxRetries := by
  cases op with
  | success now => rfl
  | failure reason now =>
    simp only [applyWebhookOp, WebhookSubscription.recordFailure]
    split <;> rfl

/-- The disable invariant is preserved by every sequence of recorded outcomes. -/
theorem runWebhookOps_inv (w : WebhookSubscription) (ops : List WebhookOp)
    (h : w.maxRetries ≤ w.retryCount → w.isActive = false) :
    (runWebhookOps w ops).maxRetries ≤ (runWebhookOps w ops).retryCount →
      (runWebhookOps w ops).isActive = false := by
  induction ops generalizing w with
  | nil => exact h
  | cons op ops ih =>
    simpa [runWebhookOps, List.foldl_cons] using
      ih (applyWebhookOp w op) (applyWebhookOp_inv w op h)

/-- Sequences of recorded outcomes never change maxRetries. -/
theorem runWebhookOps_maxRetries (w : WebhookSubscription) (ops : List WebhookOp) :
    (runWebhookOps w ops).maxRetries = w.maxRetries := by
  induction ops generalizing w with
  | nil => rfl
  | cons op ops ih =>
    calc (runWebhookOps w (op :: ops)).maxRetries
        = (runWebhookOps (applyWebhookOp w op) ops).maxRetries := rfl
      _ = (applyWebhookOp w op).maxRetries := ih (applyWebhookOp w op)
      _ = w.maxRetries := applyWebhookOp_maxRetries w op

/-- C9 (amended): recordFailure stamps lastFailureAt and lastFailureReason,
increments retryCount by exactly one, and disables the subscription exactly
when the incremented count has reached maxRetries; and for subscriptions
created with maxRetries at least one, every state reachable through
success and failure recording has retryCount below maxRetries or is already
disabled. For maxRetries zero the invariant fails, see the counterexample. -/
theorem C9_recordFailure (w : WebhookSubscription) (reason : String) (now : Int)
    (url secret : String) (mr : Nat) (ops : List WebhookOp) (hmr : 1 ≤ mr) :
    (w.recordFailure reason now).lastFailureAt = some now ∧
    (w.recordFailure reason now).lastFailureReason = some reason ∧
    (w.recordFailure reason now).retryCount = w.retryCount + 1 ∧
    (w.recordFailure reason now).isActive
      = (if w.maxRetries ≤ w.retryCount + 1 then false else w.isActive) ∧
    ((runWebhookOps (newSubscription url secret mr) ops).retryCount < mr ∨
     (runWebhookOps (newSubscription url secret mr) ops).isActive = false) := by
  refine ⟨?_, ?_, ?_, ?_, ?_⟩
  · simp only [WebhookSubscription.recordFailure]
    split <;> rfl
  · simp only [WebhookSubscription.recordFailure]
    split <;> rfl
  · simp only [WebhookSubscription.recordFailure]
    split <;> rfl
  · by_cases hc : w.maxRetries ≤ w.retryCount + 1 <;>
      simp [WebhookSubscription.recordFailure, hc]
  · by_cases hr : (runWebhookOps (newSubscription url secret mr) ops).retryCount < mr
    · exact Or.inl hr
    · refine Or.inr (runWebhookOps_inv (newSubscription url secret mr) ops ?_ ?_)
      · intro hle
        have h0 : (newSubscription url secret mr).retryCount = 0 := rfl
        have h1 : (newSubscription url secret mr).maxRetries = mr := rfl
        rw [h0, h1] at hle
        exact absurd hle (by omega)
      · rw [runWebhookOps_maxRetries]
        have h1 : (newSubscription url secret mr).maxRetries = mr := rfl
        rw [h1]
        omega

/-- Witness for C9: the amended statement evaluated on a concrete subscription,
reason, instant and operation sequence. -/
theorem C9_recordFailure_witness :
    (1 : Nat) ≤ 3 ∧
    ((zeroRetrySub.recordFailure ("timeout") 50).lastFailureAt = some 50 ∧
     (zeroRetrySub.recordFailure ("timeout") 50).lastFailureReason = some ("timeout") ∧
     (zeroRetrySub.recordFailure ("timeout") 50).retryCount = zeroRetrySub.retryCount + 1 ∧
     (zeroRetrySub.recordFailure ("timeout") 50).isActive
       = (if zeroRetrySub.maxRetries ≤ zeroRetrySub.retryCount + 1 then false
          else zeroRetrySub.isActive) ∧
     ((runWebhookOps (newSubscription ("https://a.example/h") ("k") 3)
         [WebhookOp.failure ("err") 1, WebhookOp.success 2]).retryCount < 3 ∨
      (runWebhookOps (newSubscription ("https://a.example/h") ("k") 3)
         [WebhookOp.failure ("err") 1, WebhookOp.success 2]).isActive = false)) :=
  ⟨by decide,
   C9_recordFailure zeroRetrySub ("timeout") 50 ("https://a.example/h") ("k") 3
     [WebhookOp.failure ("err") 1, WebhookOp.success 2] (by decide)⟩

/-- C9 counterexample: with maxRetries zero, after a successful delivery the
subscription satisfies retryCount at least maxRetries while still active, so
the claimed invariant fails on a state reachable through success recording. -/
theorem C9_counterexample :
    (runWebhookOps zeroRetrySub [WebhookOp.success 5]).maxRetries ≤
      (runWebhookOps zeroRetrySub [WebhookOp.success 5]).retryCount ∧
    (runWebhookOps zeroRetrySub [WebhookOp.success 5]).isActive = true := by
  decide

/-! Claim C5. -/

/-- C5 (amended): the status update operation writes exactly the requested
status for every current status, including the terminal ones: no transition
validation exists anywhere on the path, so the state machine graph of the
specification is not enforced. -/
theorem C5_updateStatus_unrestricted (b : Booking) (s : Status) (now : Int) :
    (updateBookingStatus b s now).status = s ∧
    (updateBookingStatus b s now).id = b.id :=
  ⟨rfl, rfl⟩

/-- C5 counterexample: a booking in the terminal status completed is moved back
to pending by updateBookingStatus, a transition outside the specified graph. -/
theorem C5_counterexample :
    completedBooking.status = Status.completed ∧
    specAllowedTransition Status.completed Status.pending = false ∧
    (updateBookingStatus completedBooking Status.pending 100).status
      = Status.pending := by decide

/-! Claim C8. -/

/-- C8 (amended): for every booking and every instant, the cancellation guard
returns true iff the status is not in completed, cancelled or no_show AND now
is at most bookingDateTime minus 24 hours, the global configuration deadline;
at exactly that deadline the guard returns true precisely when the status is
not terminal, and one minute past the deadline it returns false for every
status. The guard reads the constant config.booking.cancellationDeadlineHours,
never the setting of the owning store, see the counterexample. -/
theorem C8_cancellation_guard (b : Booking) (now : Int) :
    (b.canBeCancelled now = true ↔
      (b.status ≠ Status.completed ∧ b.status ≠ Status.cancelled ∧
       b.status ≠ Status.no_show ∧ now ≤ b.bookingDateTime - 86400000)) ∧
    b.canBeCancelled (b.bookingDateTime - 86400000)
      = !(b.status == Status.completed || b.status == Status.cancelled ||
          b.status == Status.no_show) ∧
    b.canBeCancelled (b.bookingDateTime - 86400000 + 60000) = false := by
  refine ⟨?_, ?_, ?_⟩
  · cases hs : b.status <;>
      simp [Booking.canBeCancelled, configCancellationDeadlineHours, hs] <;>
      omega
  · cases hs : b.status <;>
      simp [Booking.canBeCancelled, configCancellationDeadlineHours, hs]
  · cases hs : b.status <;>
      simp [Booking.canBeCancelled, configCancellationDeadlineHours, hs] <;>
      omega

/-- C8 counterexample: a pending booking 30 hours away at a store whose
cancellationDeadlineHours setting is 48: the guard in the code says cancellable
because it compares against the global 24 hour constant, while the rule of the
claim, read against the owning store setting, says not cancellable. -/
theorem C8_counterexample :
    Booking.canBeCancelled farBooking 0 = true ∧
    specStoreCancellable store48 farBooking 0 = false := by decide

/-! Claim C4. -/

/-- A pending booking for staff 5 starting exactly at instant 3600000. -/
def touchingBooking : Booking :=
  { id := 9, customerId := 1, storeId := 1, treatmentId := 2, staffId := some 5,
    bookingDateTime := 3600000, duration := 60, status := Status.pending,
    priceAmount := 0, notes := none, cancellationReason := none,
    cancelledAt := none, completedAt := none }

/-- The conflict row predicate, characterised against the half-open overlap
predicate: for a booking of positive duration and a request interval from a to
b with a at most b, the code predicate holds iff the half-open intervals
overlap or the booking starts exactly at b. -/
theorem conflictWhere_iff (staffId : Nat) (a b : Int) (x : Booking)
    (hdur : 0 < x.duration) (hab : a ≤ b) :
    conflictWhere staffId a b none x = true ↔
      (x.staffId = some staffId ∧ x.status ≠ Status.cancelled ∧
       x.status ≠ Status.no_show ∧
       (specOverlap a b x.bookingDateTime x.getEndDateTime = true ∨
        x.bookingDateTime = b)) := by
  simp only [conflictWhere, specOverlap, Booking.getEndDateTime,
    Bool.and_eq_true, Bool.or_eq_true, Bool.not_eq_true',
    Bool.or_eq_false_iff, beq_iff_eq, beq_eq_false_iff_ne, ne_eq,
    decide_eq_true_eq]
  constructor
  · rintro ⟨⟨⟨hsid, hst1, hst2⟩, hcond⟩, -⟩
    exact ⟨hsid, hst1, hst2, by omega⟩
  · rintro ⟨hsid, hst1, hst2, hcond⟩
    exact ⟨⟨⟨hsid, hst1, hst2⟩, by omega⟩, trivial⟩

/-- C4 (amended): the staff conflict query matches an existing booking of the
same staff in a live status iff the half-open intervals overlap OR the existing
booking starts exactly at the requested end: the SQL BETWEEN bound is inclusive
at the right endpoint. Hence a touching pair in which the existing booking ends
exactly at the new start is admissible, but a new booking ending exactly where
an existing one starts is reported as a conflict, see the counterexample. -/
theorem C4_conflict_query (bs : List Booking) (staffId : Nat) (a b : Int)
    (x : Booking) (hdur : 0 < x.duration) (hab : a ≤ b) :
    x ∈ findConflicting bs staffId a b none ↔
      x ∈ bs ∧ x.staffId = some staffId ∧ x.status ≠ Status.cancelled ∧
      x.status ≠ Status.no_show ∧
      (specOverlap a b x.bookingDateTime x.getEndDateTime = true ∨
       x.bookingDateTime = b) := by
  rw [findConflicting, List.mem_filter,
    conflictWhere_iff staffId a b x hdur hab]

/-- Witness for C4: the characterisation evaluated on a concrete table and
request interval. -/
theorem C4_conflict_query_witness :
    0 < touchingBooking.duration ∧ (0 : Int) ≤ 3600000 ∧
    (touchingBooking ∈ findConflicting [touchingBooking] 5 0 3600000 none ↔
      touchingBooking ∈ [touchingBooking] ∧
      touchingBooking.staffId = some 5 ∧
      touchingBooking.status ≠ Status.cancelled ∧
      touchingBooking.status ≠ Status.no_show ∧
      (specOverlap 0 3600000 touchingBooking.bookingDateTime
        touchingBooking.getEndDateTime = true ∨
       touchingBooking.bookingDateTime = 3600000)) :=
  ⟨by decide, by decide,
   C4_conflict_query [touchingBooking] 5 0 3600000 touchingBooking
     (by decide) (by decide)⟩

/-- C4 counterexample: the request interval from 0 to 3600000 merely touches
the existing booking starting at 3600000, so the half-open intervals do not
overlap, yet findConflicting reports the booking as a conflict, making the
second booking inadmissible. -/
theorem C4_counterexample :
    specOverlap 0 3600000 touchingBooking.bookingDateTime
      touchingBooking.getEndDateTime = false ∧
    findConflicting [touchingBooking] 5 0 3600000 none = [touchingBooking] := by
  decide

/-! Claim C7. -/

/-- The generation loop, characterised: with positive step and enough fuel it
produces the pairs cur + i * step to cur + (i + 1) * step for i below the
number of whole steps that fit between cur and endT. -/
theorem slotsLoopAux_eq (step : Nat) (hstep : 0 < step) :
    ∀ (fuel cur endT : Nat), endT - cur ≤ fuel →
      slotsLoopAux fuel cur endT step =
        (List.range ((endT - cur) / step)).map
          (fun i => (cur + i * step, cur + (i + 1) * step)) := by
  intro fuel
  induction fuel with
  | zero =>
    intro cur endT hle
    have h0 : (endT - cur) / step = 0 := by
      have hz : endT - cur = 0 := by omega
      rw [hz]
      exact Nat.zero_div step
    rw [h0]
    simp [slotsLoopAux]
  | succ n ih =>
    intro cur endT hle
    by_cases hc : cur < endT
    · by_cases hfit : cur + step ≤ endT
      · have hdiv : (endT - cur) / step = (endT - (cur + step)) / step + 1 := by
          have heq : endT - cur = (endT - (cur + step)) + step := by omega
          rw [heq, Nat.add_div_right _ hstep]
        rw [show slotsLoopAux (n + 1) cur endT step
            = (cur, cur + step) :: slotsLoopAux n (cur + step) endT step from by
          simp [slotsLoopAux, hc, hfit]]
        rw [ih (cur + step) endT (by omega), hdiv, List.range_succ_eq_map,
          List.map_cons, List.map_map]
        refine congrArg₂ List.cons ?_ ?_
        · simp
        · apply List.map_congr_left
          intro i hi
          simp only [Function.comp_apply, Prod.mk.injEq, Nat.succ_eq_add_one]
          constructor <;> ring
      · have h1 : (endT - cur) / step = 0 := Nat.div_eq_of_lt (by omega)
        have h2 : endT - (cur + step) = 0 := by omega
        rw [show slotsLoopAux (n + 1) cur endT step
            = slotsLoopAux n (cur + step) endT step from by
          simp [slotsLoopAux, hc, hfit]]
        rw [ih (cur + step) endT (by omega), h2, h1]
        simp
    · have h0 : endT - cur = 0 := by omega
      rw [show slotsLoopAux (n + 1) cur endT step = [] from by
        simp [slotsLoopAux, hc]]
      rw [h0]
      simp

/-- The loop entry point with its default fuel. -/
theorem slotsLoop_eq (cur endT step : Nat) (hstep : 0 < step) :
    slotsLoop cur endT step =
      (List.range ((endT - cur) / step)).map
        (fun i => (cur + i * step, cur + (i + 1) * step)) :=
  slotsLoopAux_eq step hstep (endT - cur) cur endT (le_refl _)

/-- C7: for a positive slot duration, daily slot generation returns the empty
set when the operating hours entry of the day is absent or closed, and returns
exactly the contiguous sequence of slots of that duration starting at the
opening time with zero currentBookings and the requested capacity, the final
partial slot discarded, as stated by the specification. The generation function
itself performs no writes: it only returns the rows to insert. -/
theorem C7_generateDailySlots (store : Store) (dayOfWeek : Nat) (dayBase : Int)
    (slotDuration : Nat) (capacity : Int) (hstep : 0 < slotDuration) :
    generateDailySlots store dayOfWeek dayBase slotDuration capacity =
      specContiguousSlots store dayOfWeek dayBase slotDuration capacity := by
  rcases hq : store.hoursFor dayOfWeek with - | oh
  · simp [generateDailySlots, specContiguousSlots, hq]
  · by_cases hcl : oh.closed = true
    · simp [generateDailySlots, specContiguousSlots, hq, hcl]
    · simp only [generateDailySlots, specContiguousSlots, hq]
      rw [if_neg hcl, if_neg hcl,
        slotsLoop_eq (minutesOpen oh) (minutesClose oh) slotDuration hstep,
        List.map_map]
      rfl

/-- A store open on day 1 from 09:00 to 17:30. -/
def mondayStore : Store :=
  { id := 2,
    operatingHours := [(1, { closed := false, openHour := 9, openMinute := 0,
                             closeHour := 17, closeMinute := 30 })],
    settings := { cancellationDeadlineHours := 24, maxAdvanceBookingDays := 90 } }

/-- Witness for C7: the generation equation evaluated on a concrete open day,
09:00 to 17:30 with 60 minute slots, eight whole slots. -/
theorem C7_generateDailySlots_witness :
    0 < 60 ∧
    generateDailySlots mondayStore 1 0 60 1
      = specContiguousSlots mondayStore 1 0 60 1 :=
  ⟨by decide, C7_generateDailySlots mondayStore 1 0 60 1 (by decide)⟩

/-! Claim C6. -/

/-- A timeslot of store 2 on the generated day that carries an active booking. -/
def busySlot : Timeslot :=
  { id := 11, storeId := 2, startTime := 36000000, endTime := 39600000,
    maxCapacity := 1, currentBookings := 1, isActive := true }

/-- A store closed on day 1. -/
def closedStore : Store :=
  { id := 2,
    operatingHours := [(1, { closed := true, openHour := 0, openMinute := 0,
                             closeHour := 0, closeMinute := 0 })],
    settings := { cancellationDeadlineHours := 24, maxAdvanceBookingDays := 90 } }

/-- The first slot generated for mondayStore on day 1 with base 0. -/
def freshSlot : Timeslot :=
  { id := 0, storeId := 2, startTime := 32400000, endTime := 36000000,
    maxCapacity := 1, currentBookings := 0, isActive := true }

/-- C6 (amended): regeneration never fails: it unconditionally deletes every
existing slot of the store whose start lies in the local day, including the
slots with positive currentBookings, and inserts freshly generated ones; hence
after regeneration every slot of that store in that day range has
currentBookings zero. The conflict check the claim describes does not exist. -/
theorem C6_regeneration (slots : List Timeslot) (store : Store) (dayOfWeek : Nat)
    (dayBase : Int) (slotDuration : Nat) (capacity : Int) (t : Timeslot)
    (hmem : t ∈ (generateTimeslotsService slots store dayOfWeek dayBase
      slotDuration capacity).1)
    (hstore : t.storeId = store.id)
    (hlo : dayBase ≤ t.startTime) (hhi : t.startTime ≤ dayBase + 86399999) :
    t.currentBookings = 0 := by
  simp only [generateTimeslotsService, List.mem_append] at hmem
  rcases hmem with hkept | hfresh
  · rcases List.mem_filter.mp hkept with ⟨-, hpred⟩
    simp [hstore, hlo, hhi] at hpred
  · rcases hq : store.hoursFor dayOfWeek with - | oh
    · simp [generateDailySlots, hq] at hfresh
    · by_cases hcl : oh.closed = true
      · simp [generateDailySlots, hq, hcl] at hfresh
      · simp only [generateDailySlots, hq] at hfresh
        rw [if_neg hcl] at hfresh
        rcases List.mem_map.mp hfresh with ⟨p, -, hp⟩
        rw [← hp]

/-- Witness for C6: the first regenerated slot of a concrete open day has
currentBookings zero. -/
theorem C6_regeneration_witness :
    freshSlot ∈ (generateTimeslotsService [busySlot] mondayStore 1 0 60 1).1 ∧
    freshSlot.storeId = mondayStore.id ∧
    (0 : Int) ≤ freshSlot.startTime ∧
    freshSlot.startTime ≤ 0 + 86399999 ∧
    freshSlot.currentBookings = 0 :=
  ⟨by decide, by decide, by decide, by decide,
   C6_regeneration [busySlot] mondayStore 1 0 60 1 freshSlot
     (by decide) (by decide) (by decide) (by decide)⟩

/-- C6 counterexample: a slot with currentBookings 1 exists for the requested
store and date; regeneration does not fail with a conflict error, it returns
normally and the busy slot has been deleted, so writes did occur. -/
theorem C6_counterexample :
    busySlot.currentBookings = 1 ∧
    (generateTimeslotsService [busySlot] closedStore 1 0 60 1).1 = [] := by
  decide

/-! Claim C1. -/

/-- A customer account. -/
def sampleCustomer : User :=
  { id := 1, storeId := none, role := Role.customer, isActive := true }

/-- A staff account of store 1. -/
def sampleStaff : User :=
  { id := 5, storeId := some 1, role := Role.staff, isActive := true }

/-- An active treatment of store 1, 60 minutes. -/
def sampleTreatment : Treatment :=
  { id := 2, storeId := 1, duration := 60, priceAmount := 50, isActive := true }

/-- An active timeslot of store 1 covering the interval 0 to 3600000 with free
capacity. -/
def coveringSlot : Timeslot :=
  { id := 20, storeId := 1, startTime := 0, endTime := 3600000,
    maxCapacity := 1, currentBookings := 0, isActive := true }

/-- The state before the booking request of the C1 scenario. -/
def st0 : SystemState :=
  { users := [sampleCustomer, sampleStaff], treatments := [sampleTreatment],
    bookings := [], timeslots := [coveringSlot], events := [] }

/-- The state after the accepted booking request of the C1 scenario. -/
def st0after : SystemState :=
  { st0 with bookings :=
      [newBookingRecord 100 1 1 2 (some 5) 0 sampleTreatment none] }

/-- C1 (amended): every accepted booking request inserts exactly one booking
row, in status pending, at the head of the bookings table; the timeslot table
and the event queue are unchanged: the controller neither increments any
currentBookings counter nor enqueues a booking created event. -/
theorem C1_createBooking_effects (st st' : SystemState) (reqRole : Role)
    (reqUserId : Nat) (customerId : Option Nat) (storeId treatmentId : Nat)
    (staffId : Option Nat) (bookingDateTime : Int) (notes : Option String)
    (newId : Nat)
    (h : createBooking st reqRole reqUserId customerId storeId treatmentId
           staffId bookingDateTime notes newId = Except.ok st') :
    st'.bookings.length = st.bookings.length + 1 ∧
    st'.bookings.tail = st.bookings ∧
    st'.timeslots = st.timeslots ∧
    st'.events = st.events ∧
    st'.bookings.head?.map Booking.status = some Status.pending := by
  unfold createBooking at h
  repeat' split at h
  all_goals try exact Except.noConfusion h
  rw [Except.ok.injEq] at h
  subst h
  exact ⟨rfl, rfl, rfl, rfl, rfl⟩

/-- Witness for C1: the accepted request of the concrete scenario, evaluated. -/
theorem C1_createBooking_effects_witness :
    createBooking st0 Role.customer 1 none 1 2 (some 5) 0 none 100
      = Except.ok st0after ∧
    (st0after.bookings.length = st0.bookings.length + 1 ∧
     st0after.bookings.tail = st0.bookings ∧
     st0after.timeslots = st0.timeslots ∧
     st0after.events = st0.events ∧
     st0after.bookings.head?.map Booking.status = some Status.pending) :=
  ⟨by rfl,
   C1_createBooking_effects st0 st0after Role.customer 1 none 1 2 (some 5) 0
     none 100 (by rfl)⟩

/-- C1 counterexample: the concrete request is accepted, and the state holds a
covering timeslot for it, yet after the operation that timeslot still has
currentBookings 0 instead of 1 and the event queue is still empty instead of
holding one booking created event. -/
theorem C1_counterexample :
    (createBooking st0 Role.customer 1 none 1 2 (some 5) 0 none 100).toOption.map
      SystemState.timeslots = some [coveringSlot] ∧
    coveringSlot.currentBookings = 0 ∧
    coveringSlot.startTime ≤ 0 ∧
    (0 + 60 * 60000 : Int) ≤ coveringSlot.endTime ∧
    (createBooking st0 Role.customer 1 none 1 2 (some 5) 0 none 100).toOption.map
      SystemState.events = some [] := by decide

/-! Claim C3. -/

/-- A pending booking of customer 1, far enough in the future to cancel. -/
def cancellableBooking : Booking :=
  { id := 50, customerId := 1, storeId := 1, treatmentId := 2, staffId := some 5,
    bookingDateTime := 200000000, duration := 60, status := Status.pending,
    priceAmount := 50, notes := none, cancellationReason := none,
    cancelledAt := none, completedAt := none }

/-- The active timeslot of store 1 covering the cancellable booking, with its
counter at 1. -/
def slotOfBooking : Timeslot :=
  { id := 21, storeId := 1, startTime := 200000000, endTime := 203600000,
    maxCapacity := 1, currentBookings := 1, isActive := true }

/-- The state before the cancellation of the C3 scenario. -/
def st3 : SystemState :=
  { users := [sampleCustomer, sampleStaff], treatments := [sampleTreatment],
    bookings := [cancellableBooking], timeslots := [slotOfBooking], events := [] }

/-- The cancellable booking after its cancellation at instant 0. -/
def cancelledRow : Booking :=
  { cancellableBooking with
    status := Status.cancelled,
    cancellationReason := some ("Cancelled by user"),
    cancelledAt := some 0 }

/-- The state after the cancellation of the C3 scenario. -/
def st3after : SystemState :=
  { st3 with bookings := [cancelledRow] }

/-- C3 (amended): cancelling a cancellable booking rewrites the row to status
cancelled with cancelledAt set to now and a cancellation reason; the timeslot
table and the event queue are unchanged: no counter is decremented and no
booking cancelled event is emitted. -/
theorem C3_cancelBooking_effects (st st' : SystemState) (callerRole : Role)
    (callerId : Nat) (callerStoreId : Option Nat) (bookingId : Nat)
    (reason : Option String) (now : Int) (b : Booking)
    (hfind : st.bookings.find? (fun x => x.id == bookingId) = some b)
    (h : cancelBooking st callerRole callerId callerStoreId bookingId reason now
           = Except.ok st') :
    b.canBeCancelled now = true ∧
    st'.timeslots = st.timeslots ∧
    st'.events = st.events ∧
    st'.bookings = st.bookings.map (fun x =>
      if x.id == b.id then
        { b with status := Status.cancelled,
                 cancellationReason :=
                   some (Option.getD reason ("Cancelled by user")),
                 cancelledAt := some now }
      else x) := by
  unfold cancelBooking at h
  rw [hfind] at h
  repeat' split at h
  all_goals try exact Except.noConfusion h
  rename_i xo bb heq ha1 ha2 hcanc
  obtain rfl : b = bb := Option.some.inj heq
  rw [Except.ok.injEq] at h
  subst h
  refine ⟨?_, rfl, rfl, rfl⟩
  simpa using hcanc

/-- Witness for C3: the concrete cancellation scenario, evaluated. -/
theorem C3_cancelBooking_effects_witness :
    st3.bookings.find? (fun x => x.id == 50) = some cancellableBooking ∧
    cancelBooking st3 Role.customer 1 none 50 none 0 = Except.ok st3after ∧
    (cancellableBooking.canBeCancelled 0 = true ∧
     st3after.timeslots = st3.timeslots ∧
     st3after.events = st3.events ∧
     st3after.bookings = st3.bookings.map (fun x =>
       if x.id == cancellableBooking.id then cancelledRow else x)) :=
  ⟨by rfl, by rfl,
   C3_cancelBooking_effects st3 st3after Role.customer 1 none 50 none 0
     cancellableBooking (by rfl) (by rfl)⟩

/-- C3 counterexample: the cancellation of the concrete scenario succeeds and
sets the status to cancelled, yet the covering timeslot still has
currentBookings 1 instead of 0 and the event queue is still empty instead of
holding one booking cancelled event. -/
theorem C3_counterexample :
    (cancelBooking st3 Role.customer 1 none 50 none 0).toOption.map
      SystemState.timeslots = some [slotOfBooking] ∧
    slotOfBooking.currentBookings = 1 ∧
    (cancelBooking st3 Role.customer 1 none 50 none 0).toOption.map
      SystemState.events = some [] ∧
    (cancelBooking st3 Role.customer 1 none 50 none 0).toOption.map
      (fun s => s.bookings.map Booking.status) = some [Status.cancelled] := by
  decide

end TreatmentBooking
